import Mathlib

/-!
Verification of the Github_Automation repository-processing pipeline.

The development shallowly embeds the pipeline's Python sources:

* `repo_processor.py` — the per-job stage state machine
  (`RepositoryProcessor.process_repository`), the webhook ingress endpoint
  (`github_webhook`) and signature verification
  (`RepositoryProcessor._verify_github_signature`);
* `repo_delete.py` — the forceful deleter (`RepositoryDeleter.delete_repository`)
  and the documentation archiver (`RepoArchiver`) with its version ledger;
* `archive_sender.py` — the archive deliverer (`ArchiveSender.send_archives`);
* `github_repo_cloner.py` — owner/name extraction (`GitHubRepoCloner._get_repo_info`).

External effects (subprocess exit codes, filesystem contents, HTTP outcomes)
are passed in as explicit oracle inputs; the control flow of each embedded
function follows the Python source line by line.
-/

/-! ### Stage state machine of `RepositoryProcessor.process_repository`

`repo_processor.py` lines 154-241.  Each pipeline stage is delegated to
`_run_script`, which returns a boolean (it catches `CalledProcessError` and
never raises).  The oracle `ProcInputs` records, for every stage script, the
boolean outcome its invocation would produce, plus whether an archive
delivery endpoint (`archive_webhook_url`) is configured for the job.
-/

/-- Status of one pipeline stage, as stored in `RepositoryProcessor.status`.
A key absent from the Python `status` dict is modelled as `pending`. -/
inductive StageStatus where
  | pending
  | completed
  | failed
  | skipped
deriving DecidableEq, Repr

/-- Oracle for one job: the boolean result each stage script invocation
would return, and whether `archive_webhook_url` is set. -/
structure ProcInputs where
  cloneOk : Bool
  classifyOk : Bool
  projectDocsOk : Bool
  uatDocsOk : Bool
  apiDocsOk : Bool
  webhookConfigured : Bool
  archiveSendOk : Bool
  deleteOk : Bool
deriving DecidableEq, Repr

/-- Observable outcome of `process_repository`: the per-stage status map,
whether the DELETE stage script (`repo_delete.py`) was invoked at all, and
the boolean return value. -/
structure ProcResult where
  clone : StageStatus
  classify : StageStatus
  project_docs : StageStatus
  uat_docs : StageStatus
  api_docs : StageStatus
  archive_send : StageStatus
  delete : StageStatus
  deleteAttempted : Bool
  success : Bool
deriving DecidableEq, Repr

/-- The status map before any stage has run: every key absent (= `pending`),
no deletion attempted, return value would be `False`. -/
def initStatus : ProcResult :=
  { clone := .pending, classify := .pending, project_docs := .pending
  , uat_docs := .pending, api_docs := .pending, archive_send := .pending
  , delete := .pending, deleteAttempted := false, success := false }

/-- Stage 7 of `process_repository` (lines 229-237): run `repo_delete.py`;
on failure record `delete = failed` and return `False`, otherwise record
`delete = completed` and return `True`. -/
def runDeleteStage (i : ProcInputs) (r : ProcResult) : ProcResult :=
  if !i.deleteOk then { r with delete := .failed, deleteAttempted := true }
  else { r with delete := .completed, deleteAttempted := true, success := true }

/-- `RepositoryProcessor.process_repository` (lines 154-241), with each
`_run_script` outcome supplied by the oracle `i`.  Early `return False`
paths leave all later status keys unset (`pending`). -/
def process_repository (i : ProcInputs) : ProcResult :=
  let r := initStatus
  -- Stage 1: clone repository
  if !i.cloneOk then { r with clone := .failed } else
  let r := { r with clone := .completed }
  -- Stage 2: classify files
  if !i.classifyOk then { r with classify := .failed } else
  let r := { r with classify := .completed }
  -- Stage 3: project documentation
  if !i.projectDocsOk then { r with project_docs := .failed } else
  let r := { r with project_docs := .completed }
  -- Stage 4: UAT documentation
  if !i.uatDocsOk then { r with uat_docs := .failed } else
  let r := { r with uat_docs := .completed }
  -- Stage 5: API documentation (non-critical): failure is recorded as skipped
  let r := if !i.apiDocsOk then { r with api_docs := .skipped }
           else { r with api_docs := .completed }
  -- Stage 6: send archives, only when a delivery endpoint is configured
  if i.webhookConfigured then
    if !i.archiveSendOk then { r with archive_send := .failed }
    else runDeleteStage i { r with archive_send := .completed }
  else
    runDeleteStage i { r with archive_send := .skipped }

/-- The seven pipeline stages, in their fixed order. -/
inductive Stage where
  | clone
  | classify
  | doc_project
  | doc_uat
  | doc_api
  | archive_send
  | delete
deriving DecidableEq, Fintype, Repr

/-- Position of a stage in the fixed pipeline order. -/
def stageIdx : Stage → Nat
  | .clone => 0
  | .classify => 1
  | .doc_project => 2
  | .doc_uat => 3
  | .doc_api => 4
  | .archive_send => 5
  | .delete => 6

/-- All stages, in pipeline order. -/
def allStages : List Stage :=
  [.clone, .classify, .doc_project, .doc_uat, .doc_api, .archive_send, .delete]

/-- Read the status map of a `ProcResult` at a given stage. -/
def stageStatus (r : ProcResult) : Stage → StageStatus
  | .clone => r.clone
  | .classify => r.classify
  | .doc_project => r.project_docs
  | .doc_uat => r.uat_docs
  | .doc_api => r.api_docs
  | .archive_send => r.archive_send
  | .delete => r.delete

/-- The first critical stage among CLONE, CLASSIFY, DOC_PROJECT, DOC_UAT whose
script invocation fails (the stage at which lines 168-189 return `False`),
if any. -/
def firstFailedCritical (i : ProcInputs) : Option Stage :=
  if !i.cloneOk then some .clone
  else if !i.classifyOk then some .classify
  else if !i.projectDocsOk then some .doc_project
  else if !i.uatDocsOk then some .doc_uat
  else none

/-- Claim C1: for every job processed by `process_repository`, the DELETE
stage (`repo_delete.py`) is attempted if and only if the ARCHIVE_SEND stage
ended `completed`, or `skipped` because no delivery endpoint was configured;
DELETE is never attempted when ARCHIVE_SEND is `failed`. -/
theorem delete_attempted_iff_archive_send_ok (i : ProcInputs) :
    ((process_repository i).deleteAttempted = true ↔
      ((process_repository i).archive_send = .completed ∨
       ((process_repository i).archive_send = .skipped ∧
        i.webhookConfigured = false))) ∧
    ((process_repository i).archive_send = .failed →
      (process_repository i).deleteAttempted = false) := by
  obtain ⟨c, cl, p, u, a, w, s, d⟩ := i
  cases c <;> cases cl <;> cases p <;> cases u <;> cases a <;> cases w <;>
    cases s <;> cases d <;> decide

/-- Concrete instance of `delete_attempted_iff_archive_send_ok`: a job with a
configured endpoint whose archive sending fails never reaches DELETE. -/
theorem delete_attempted_iff_archive_send_ok_witness :
    (process_repository
      ⟨true, true, true, true, true, true, false, true⟩).deleteAttempted
      = false :=
  (delete_attempted_iff_archive_send_ok
    ⟨true, true, true, true, true, true, false, true⟩).2 (by decide)

/-- Claim C6: if a critical stage (CLONE, CLASSIFY, DOC_PROJECT or DOC_UAT)
fails, `process_repository` returns `False`, the failing stage is recorded
`failed`, every later stage stays `pending`, and the DELETE stage never
runs (the working tree is left on disk). -/
theorem critical_failure_halts_job (i : ProcInputs) (s : Stage)
    (h : firstFailedCritical i = some s) :
    (process_repository i).success = false ∧
    (process_repository i).deleteAttempted = false ∧
    stageStatus (process_repository i) s = .failed ∧
    ∀ t ∈ allStages, stageIdx s < stageIdx t →
      stageStatus (process_repository i) t = .pending := by
  obtain ⟨c, cl, p, u, a, w, se, d⟩ := i
  revert h
  cases c <;> cases cl <;> cases p <;> cases u <;> cases a <;> cases w <;>
    cases se <;> cases d <;> cases s <;> decide

/-- Concrete instance of `critical_failure_halts_job`: a job whose CLASSIFY
stage fails halts with CLASSIFY `failed`, DELETE `pending` and no deletion
attempt. -/
theorem critical_failure_halts_job_witness :
    (process_repository ⟨true, false, true, true, true, true, true, true⟩).success
        = false ∧
    (process_repository
        ⟨true, false, true, true, true, true, true, true⟩).deleteAttempted
        = false ∧
    stageStatus (process_repository ⟨true, false, true, true, true, true, true, true⟩)
        .classify = .failed ∧
    stageStatus (process_repository ⟨true, false, true, true, true, true, true, true⟩)
        .delete = .pending := by
  have h := critical_failure_halts_job
    ⟨true, false, true, true, true, true, true, true⟩ .classify (by decide)
  exact ⟨h.1, h.2.1, h.2.2.1, h.2.2.2 .delete (by decide) (by decide)⟩

/-- Claim C7: when the DOC_API stage executor fails, the stage is recorded
`skipped` (never `failed`), the state machine still advances to ARCHIVE_SEND
(its status is no longer `pending`), and the DOC_API failure alone does not
change the job's overall outcome. -/
theorem api_docs_failure_is_non_critical (i : ProcInputs)
    (hc : i.cloneOk = true) (hcl : i.classifyOk = true)
    (hp : i.projectDocsOk = true) (hu : i.uatDocsOk = true)
    (ha : i.apiDocsOk = false) :
    (process_repository i).api_docs = .skipped ∧
    (process_repository i).archive_send ≠ .pending ∧
    (process_repository i).success =
      (process_repository { i with apiDocsOk := true }).success := by
  obtain ⟨c, cl, p, u, a, w, se, d⟩ := i
  revert hc hcl hp hu ha
  cases c <;> cases cl <;> cases p <;> cases u <;> cases a <;> cases w <;>
    cases se <;> cases d <;> decide

/-- Concrete instance of `api_docs_failure_is_non_critical`: a job with a
failing DOC_API executor and no delivery endpoint still succeeds with
`api_docs = skipped`. -/
theorem api_docs_failure_is_non_critical_witness :
    (process_repository ⟨true, true, true, true, false, false, true, true⟩).api_docs
        = .skipped ∧
    (process_repository
        ⟨true, true, true, true, false, false, true, true⟩).archive_send
        ≠ .pending ∧
    (process_repository ⟨true, true, true, true, false, false, true, true⟩).success
        = (process_repository
            { cloneOk := true, classifyOk := true, projectDocsOk := true
            , uatDocsOk := true, apiDocsOk := true, webhookConfigured := false
            , archiveSendOk := true, deleteOk := true }).success :=
  api_docs_failure_is_non_critical
    ⟨true, true, true, true, false, false, true, true⟩
    rfl rfl rfl rfl rfl

/-! ### Python string primitives

The ingress endpoint and the repo-name extraction manipulate Python
strings with `split`, `join`, `rstrip`, `strip`, `startswith`, `endswith`
and `replace`.  They are modelled on lists of characters (`PyStr`), with
each primitive following the Python semantics (in particular `replace`
removes every non-overlapping occurrence, left to right). -/

/-- A Python string, modelled as its list of characters. -/
abbrev PyStr := List Char

/-- `str.split(sep)` for a one-character separator: splits at every
occurrence, keeping empty segments (`"a//b".split("/") == ["a","","b"]`,
`"".split("/") == [""]`). -/
def pySplit (sep : Char) : PyStr → List PyStr
  | [] => [[]]
  | c :: rest =>
    match pySplit sep rest with
    | [] => [[]]
    | seg :: segs => if c = sep then [] :: seg :: segs else (c :: seg) :: segs

/-- `sep.join(segments)` for a one-character separator. -/
def pyJoin (sep : Char) : List PyStr → PyStr
  | [] => []
  | [s] => s
  | s :: rest => s ++ sep :: pyJoin sep rest

/-- `str.rstrip(sep)`: drop trailing occurrences of `sep`. -/
def pyRstrip (sep : Char) (s : PyStr) : PyStr :=
  (s.reverse.dropWhile (· = sep)).reverse

/-- `str.lstrip(sep)`: drop leading occurrences of `sep`. -/
def pyLstrip (sep : Char) (s : PyStr) : PyStr :=
  s.dropWhile (· = sep)

/-- `str.strip(sep)`: drop leading and trailing occurrences of `sep`. -/
def pyStrip (sep : Char) (s : PyStr) : PyStr :=
  pyRstrip sep (pyLstrip sep s)

/-- `str.startswith(pat)`. -/
def leadsWith : PyStr → PyStr → Bool
  | [], _ => true
  | _ :: _, [] => false
  | p :: ps, c :: cs => p = c && leadsWith ps cs

/-- `str.endswith(pat)`. -/
def trailsWith (pat s : PyStr) : Bool :=
  leadsWith pat.reverse s.reverse

/-- Fuel-driven worker for `pyReplace`; the fuel is the length of the
string being scanned, which bounds the number of scan steps. -/
def pyReplaceFuel (pat rep : PyStr) : Nat → PyStr → PyStr
  | _, [] => []
  | 0, s => s
  | fuel + 1, c :: rest =>
    if !pat.isEmpty && leadsWith pat (c :: rest) then
      rep ++ pyReplaceFuel pat rep fuel ((c :: rest).drop pat.length)
    else
      c :: pyReplaceFuel pat rep fuel rest

/-- `s.replace(pat, rep)` for a nonempty `pat`: replaces every
non-overlapping occurrence of `pat` in `s`, scanning left to right. -/
def pyReplace (s pat rep : PyStr) : PyStr :=
  pyReplaceFuel pat rep s.length s

/-- Python truthiness of an optional string: `None` and `""` are falsy. -/
def truthy : Option PyStr → Bool
  | none => false
  | some s => !s.isEmpty

/-! ### Repository name and owner extraction

`RepositoryProcessor._extract_repo_name` (repo_processor.py lines 75-77)
and `GitHubRepoCloner._get_repo_info` (github_repo_cloner.py lines
96-115). -/

/-- `RepositoryProcessor._extract_repo_name`:
`url.rstrip('/').split('/')[-1].replace('.git', '')`. -/
def extract_repo_name (url : PyStr) : PyStr :=
  pyReplace ((pySplit '/' (pyRstrip '/' url)).getLastD []) ".git".data []

/-- Fuel-driven worker for `splitFirst`. -/
def splitFirstFuel (pat : PyStr) : Nat → PyStr → Option (PyStr × PyStr)
  | _, [] => none
  | 0, _ => none
  | fuel + 1, c :: rest =>
    if leadsWith pat (c :: rest) then some ([], (c :: rest).drop pat.length)
    else
      match splitFirstFuel pat fuel rest with
      | some (pre, post) => some (c :: pre, post)
      | none => none

/-- Split a string around the first occurrence of the nonempty pattern
`pat`, returning the parts before and after it, or `none` when `pat` does
not occur. -/
def splitFirst (pat s : PyStr) : Option (PyStr × PyStr) :=
  splitFirstFuel pat s.length s

/-- `urllib.parse.urlparse(u).path` for the URL shapes reaching
`_get_repo_info`: for a `scheme://host/path` URL the path is everything
from the first `/` after the host (empty when there is no such `/`); a
URL without `://` has no scheme or netloc, so the whole string is the
path. -/
def urlparse_path (u : PyStr) : PyStr :=
  match splitFirst "://".data u with
  | some (_, rest) =>
    match splitFirst "/".data rest with
    | some (_, path) => '/' :: path
    | none => []
  | none => u

/-- `GitHubRepoCloner._get_repo_info`: remove every `.git` occurrence from
the whole URL, then take the last two segments of
`urlparse(url).path.strip('/').split('/')` as `(owner, repo_name)`;
`none` when fewer than two segments remain. -/
def get_repo_info (repo_url : PyStr) : Option (PyStr × PyStr) :=
  let u := pyReplace repo_url ".git".data []
  let parts := pySplit '/' (pyStrip '/' (urlparse_path u))
  match parts.reverse with
  | name :: owner :: _ => some (owner, name)
  | _ => none

/-- Claim C10: repo name and owner extraction deletes every occurrence of
`.git` anywhere in the input, not only a trailing extension: for the
repository `user.github.io` the derived name (`userhub.io`, used for the
on-disk target path) differs from the URL's actual last path segment,
both in `_extract_repo_name` and in `_get_repo_info`; a trailing `.git`
extension is removed as intended. -/
theorem repo_name_extraction_removes_all_git_occurrences :
    extract_repo_name "https://github.com/foo/user.github.io".data
      = "userhub.io".data ∧
    (pySplit '/' (pyRstrip '/' "https://github.com/foo/user.github.io".data)).getLastD []
      = "user.github.io".data ∧
    "userhub.io".data ≠ "user.github.io".data ∧
    get_repo_info "https://github.com/foo/user.github.io".data
      = some ("foo".data, "userhub.io".data) ∧
    extract_repo_name "https://github.com/foo/bar.git".data = "bar".data ∧
    get_repo_info "https://github.com/foo/bar.git".data
      = some ("foo".data, "bar".data) := by
  decide

/-! ### Webhook ingress endpoint

`github_webhook` (repo_processor.py lines 270-323) and
`RepositoryProcessor._verify_github_signature` (lines 79-99).

The handler's signature check (lines 283-288) calls the *unbound* instance
method on the class, `RepositoryProcessor._verify_github_signature(
request.get_data(), request.headers.get('X-Hub-Signature'))`: the payload
binds to `self`, the header to `payload`, and the `signature` parameter is
left unfilled, so whenever a secret is configured and an `X-Hub-Signature`
header is supplied the call raises `TypeError` before any comparison runs.
The handler's outer `except Exception` (lines 321-323) turns that into a
`500` response with no job enqueued; the "continuing with processing"
warning at line 288 is dead code.  The method itself, embedded below as
`verify_github_signature`, is lenient by design: correctly invoked, it
returns `True` on every problem and its `False` result would only have
been logged. -/

/-- `RepositoryProcessor._verify_github_signature` (lines 79-99), as a
correctly invoked three-argument method: `True` when no secret is
configured, when no signature is supplied, or when the comparison raises;
otherwise the result of the digest comparison.  `compareOutcome` is the
oracle for `hmac.compare_digest`: `some b` is its boolean result, `none`
models the `except` branch (which returns `True`).  The ingress endpoint
never actually reaches this code: its call site drops the `signature`
argument and raises `TypeError` instead. -/
def verify_github_signature (secret signature : Option PyStr)
    (compareOutcome : Option Bool) : Bool :=
  if !truthy secret then true
  else if !truthy signature then true
  else compareOutcome.getD true

/-- The observable outcome of one `POST /webhook/{path}` request: HTTP
status code, the JSON body fields of the 202 response, and whether a job
was put on the queue. -/
structure WebhookResponse where
  statusCode : Nat
  repository : Option PyStr
  reference_id : Option PyStr
  bodyStatus : Option PyStr
  enqueued : Bool
deriving DecidableEq, Repr

/-- Lines 291-292: the trailing path segment is treated as a reference
token when the path has more than two segments and the segment does not
end in `.git`. -/
def webhookRef (github_url : PyStr) : Option PyStr :=
  let parts := pySplit '/' github_url
  if parts.length > 2 && !trailsWith ".git".data (parts.getLastD []) then
    some (parts.getLastD [])
  else none

/-- Line 293: when the extracted reference token is truthy, the locator is
the path with its last segment removed; otherwise the full path. -/
def strippedUrl (github_url : PyStr) : PyStr :=
  if truthy (webhookRef github_url) then
    pyJoin '/' (pySplit '/' github_url).dropLast
  else github_url

/-- Line 296: the endpoint's well-formedness test on the locator — it must
start with `https://github.com/` or `http://github.com/`. -/
def webhookAccepts (github_url : PyStr) : Bool :=
  leadsWith "https://github.com/".data (strippedUrl github_url) ||
  leadsWith "http://github.com/".data (strippedUrl github_url)

/-- Lines 302-305: strip trailing slashes and append `.git` when absent. -/
def normalizedLocator (github_url : PyStr) : PyStr :=
  let g := pyRstrip '/' (strippedUrl github_url)
  if trailsWith ".git".data g then g else g ++ ".git".data

/-- `github_webhook` (lines 270-323).  When a secret is configured and an
`X-Hub-Signature` header is present (line 283), the mis-invoked
verification call at line 284 raises `TypeError` — the signature argument
is missing — and the outer `except Exception` answers `500` without
enqueueing.  Otherwise: locator validation (`400` on failure), then
normalization, enqueue and the `202` acknowledgment. -/
def github_webhook (secret sigHeader : Option PyStr)
    (github_url : PyStr) : WebhookResponse :=
  if truthy secret && truthy sigHeader then
    { statusCode := 500
    , repository := none
    , reference_id := none
    , bodyStatus := none
    , enqueued := false }
  else if webhookAccepts github_url then
    { statusCode := 202
    , repository := some (normalizedLocator github_url)
    , reference_id := webhookRef github_url
    , bodyStatus := some "queued".data
    , enqueued := true }
  else
    { statusCode := 400
    , repository := none
    , reference_id := none
    , bodyStatus := none
    , enqueued := false }

/-- Claim C2 (code bug): the claim — and the handler's own dead warning
"Invalid signature received, but continuing with processing" (line 288),
together with the lenient method embedded as `verify_github_signature` —
say a well-formed request is enqueued with `202` even when a configured
secret and a supplied `X-Hub-Signature` do not verify.  The code instead
answers `500` without enqueueing on that exact input, because the call at
line 284 drops the `signature` argument and raises `TypeError`.  The
theorem evaluates the endpoint at the failing input: a well-formed
locator, a configured secret and a signature header yield `500` and no
enqueued job, although the verification method itself, correctly invoked
on a failing comparison, returns `False` rather than raising. -/
theorem bad_signature_request_rejected_with_500 :
    webhookAccepts "https://github.com/octocat/hello".data = true ∧
    (github_webhook (some "s3cr3t".data) (some "sha1=0000".data)
        "https://github.com/octocat/hello".data).statusCode = 500 ∧
    (github_webhook (some "s3cr3t".data) (some "sha1=0000".data)
        "https://github.com/octocat/hello".data).enqueued = false ∧
    verify_github_signature (some "s3cr3t".data) (some "sha1=0000".data)
        (some false) = false := by
  decide

/-- Counterexample to claim C9 as stated: a POST whose locator is
well-formed but which carries a configured secret and an
`X-Hub-Signature` header is answered `500` — neither the claimed `202`
for well-formed locators nor a `4xx` — and no job is enqueued. -/
theorem webhook_signature_branch_counterexample :
    webhookAccepts "https://github.com/a/b".data = true ∧
    (github_webhook (some "hunter2".data) (some "sha1=ffff".data)
        "https://github.com/a/b".data).statusCode = 500 ∧
    (github_webhook (some "hunter2".data) (some "sha1=ffff".data)
        "https://github.com/a/b".data).enqueued = false ∧
    (github_webhook (some "hunter2".data) (some "sha1=ffff".data)
        "https://github.com/a/b".data).statusCode ≠ 202 := by
  decide

/-- Amended claim C9: for every POST that does not enter the signature
branch (no secret configured, or no `X-Hub-Signature` header), the
endpoint answers `4xx` without enqueueing when the locator fails its
validation, and otherwise `202 Accepted` with the normalized locator, the
reference token (if any) and status `"queued"`; when a secret and a
signature header are both present, the endpoint answers `500` and does
not enqueue (the mis-invoked verification raises `TypeError`), as
`webhook_signature_branch_counterexample` shows. -/
theorem webhook_response_matches_locator_validity
    (secret sigHeader : Option PyStr) (github_url : PyStr) :
    ((truthy secret && truthy sigHeader) = false →
      (webhookAccepts github_url = false →
        (github_webhook secret sigHeader github_url).statusCode = 400 ∧
        (github_webhook secret sigHeader github_url).enqueued = false) ∧
      (webhookAccepts github_url = true →
        (github_webhook secret sigHeader github_url).statusCode = 202 ∧
        (github_webhook secret sigHeader github_url).enqueued = true ∧
        (github_webhook secret sigHeader github_url).repository
          = some (normalizedLocator github_url) ∧
        (github_webhook secret sigHeader github_url).reference_id
          = webhookRef github_url ∧
        (github_webhook secret sigHeader github_url).bodyStatus
          = some "queued".data)) ∧
    ((truthy secret && truthy sigHeader) = true →
      (github_webhook secret sigHeader github_url).statusCode = 500 ∧
      (github_webhook secret sigHeader github_url).enqueued = false) := by
  refine ⟨fun hsig => ⟨fun h => ?_, fun h => ?_⟩, fun hsig => ?_⟩
  · simp [github_webhook, hsig, h]
  · simp [github_webhook, hsig, h]
  · simp [github_webhook, hsig]

/-- Concrete instances of `webhook_response_matches_locator_validity`,
with no secret configured: a non-GitHub locator is rejected with `400`
and not enqueued; a GitHub locator with a trailing reference token is
enqueued with `202`, the `.git`-normalized locator, the token and status
`"queued"`; and with a secret and signature header present, the response
is `500` with nothing enqueued. -/
theorem webhook_response_matches_locator_validity_witness :
    (github_webhook none none
        "https://gitlab.com/a/b".data).statusCode = 400 ∧
    (github_webhook none none
        "https://gitlab.com/a/b".data).enqueued = false ∧
    (github_webhook none none
        "https://github.com/octocat/hello/REF123".data).statusCode = 202 ∧
    (github_webhook none none
        "https://github.com/octocat/hello/REF123".data).enqueued = true ∧
    (github_webhook none none
        "https://github.com/octocat/hello/REF123".data).repository
        = some "https://github.com/octocat/hello.git".data ∧
    (github_webhook none none
        "https://github.com/octocat/hello/REF123".data).reference_id
        = some "REF123".data ∧
    (github_webhook none none
        "https://github.com/octocat/hello/REF123".data).bodyStatus
        = some "queued".data ∧
    (github_webhook (some "s".data) (some "sha1=00".data)
        "https://github.com/octocat/hello".data).statusCode = 500 ∧
    (github_webhook (some "s".data) (some "sha1=00".data)
        "https://github.com/octocat/hello".data).enqueued = false := by
  have hbad := ((webhook_response_matches_locator_validity none none
    "https://gitlab.com/a/b".data).1 (by decide)).1 (by decide)
  have hgood := ((webhook_response_matches_locator_validity none none
    "https://github.com/octocat/hello/REF123".data).1 (by decide)).2 (by decide)
  have hsig := (webhook_response_matches_locator_validity (some "s".data)
    (some "sha1=00".data) "https://github.com/octocat/hello".data).2 (by decide)
  refine ⟨hbad.1, hbad.2, hgood.1, hgood.2.1, ?_, ?_, hgood.2.2.2.2,
    hsig.1, hsig.2⟩
  · rw [hgood.2.2.1]; decide
  · rw [hgood.2.2.2.1]; decide

/-! ### Forceful deletion — `RepositoryDeleter.delete_repository`

`repo_delete.py` lines 141-200.  The filesystem and the removal calls are
abstracted by the oracle `DeleteEnv`.  The `.git` removal (lines 155-162)
catches its own exception and always continues.  The error callback
`_remove_readonly` catches every exception it encounters, so
`shutil.rmtree(self.repo_path, onerror=...)` raising (line 168) is modelled
as a possible oracle outcome rather than derived behavior.  In the manual
fallback walk (lines 171-188) every per-entry operation is wrapped in
`try/except: pass`; only the final `os.rmdir(self.repo_path)` can raise,
which aborts with `return False`.  A successful `os.rmdir` implies the
root is gone, so after a non-raising fallback the root is absent. -/

/-- Oracle for one `delete_repository` call. -/
structure DeleteEnv where
  /-- The `.git` subdirectory exists (line 156). -/
  gitDirExists : Bool
  /-- `shutil.rmtree` on the `.git` subdirectory raises (caught, line 160). -/
  gitRemovalRaises : Bool
  /-- `shutil.rmtree` on the repository root raises (line 168). -/
  mainRemovalRaises : Bool
  /-- The repository root still exists after the `rmtree` attempt. -/
  existsAfterMain : Bool
  /-- The final `os.rmdir(self.repo_path)` of the fallback walk raises
  (line 185). -/
  fallbackRmdirRaises : Bool
  /-- The repository root still exists after a raising fallback `rmdir`. -/
  existsAfterFallback : Bool
deriving DecidableEq, Repr

/-- Whether the repository root exists at the moment `delete_repository`
returns. -/
def finalExists (e : DeleteEnv) : Bool :=
  if e.mainRemovalRaises then
    if e.fallbackRmdirRaises then e.existsAfterFallback else false
  else e.existsAfterMain

/-- `RepositoryDeleter.delete_repository` (lines 141-200): kill holding
processes, remove `.git` (errors tolerated), remove the tree, on an
exception fall back to a manual bottom-up walk, and report success only
when the final existence check (line 191) finds the path gone. -/
def delete_repository (e : DeleteEnv) : Bool :=
  -- _kill_git_processes / .git removal: no effect on the return value,
  -- every error there is caught and deletion continues
  if e.mainRemovalRaises then
    if e.fallbackRmdirRaises then false
    else if finalExists e then false else true
  else if finalExists e then false else true

/-- Claim C3: `delete_repository` returns `True` if and only if the target
path is absent when the call returns; in particular a run in which no
removal step raised but the path still exists returns `False`.  The
hypothesis is the `os.rmdir` contract: when the fallback `rmdir` raises it
has not removed the root, so the root (present when the walk started) is
still present. -/
theorem delete_repository_true_iff_path_absent (e : DeleteEnv)
    (hrmdir : e.fallbackRmdirRaises = true → e.existsAfterFallback = true) :
    (delete_repository e = true ↔ finalExists e = false) ∧
    (e.gitRemovalRaises = false → e.mainRemovalRaises = false →
      e.fallbackRmdirRaises = false → finalExists e = true →
      delete_repository e = false) := by
  obtain ⟨g, gr, mr, em, fr, ef⟩ := e
  revert hrmdir
  cases g <;> cases gr <;> cases mr <;> cases em <;> cases fr <;> cases ef <;>
    decide

/-- Concrete instances of `delete_repository_true_iff_path_absent`: a run
whose removal calls raise nothing but whose path survives reports failure,
and a run whose path is gone reports success. -/
theorem delete_repository_true_iff_path_absent_witness :
    delete_repository ⟨true, false, false, true, false, false⟩ = false ∧
    delete_repository ⟨true, false, false, false, false, false⟩ = true := by
  have h1 := delete_repository_true_iff_path_absent
    ⟨true, false, false, true, false, false⟩ (by decide)
  have h2 := delete_repository_true_iff_path_absent
    ⟨true, false, false, false, false, false⟩ (by decide)
  exact ⟨h1.2 rfl rfl rfl (by decide), h2.1.mpr (by decide)⟩

/-! ### RepoArchiver and the version ledger

`repo_delete.py` lines 202-296.  A ledger (`versions.json`, and the
in-memory `self.versions` dict) maps folder names to version numbers with
default `0` (`self.versions.get(folder_name, 0)`), modelled as a total
function.  The filesystem state of each folder and the success of each
bundle write are supplied by the oracle `ArchiveEnv`.  Every assignment of
a version number by `_get_next_version` is recorded as an event
`(folder, version, write succeeded)`. -/

/-- Oracle outcome for one folder in one run: the folder is missing from
the repository, or its zip write fails, or its zip write succeeds. -/
inductive FolderOutcome where
  | absent
  | writeFail
  | writeOk
deriving DecidableEq, Repr

/-- A version ledger: folder name to last assigned version, default 0. -/
abbrev Ledger := String → Nat

/-- Per-run oracle: the outcome each folder would have if archived. -/
abbrev ArchiveEnv := String → FolderOutcome

/-- Archiver state: the in-memory `self.versions` dict, the committed
(on-disk `versions.json`) ledger, and the history of version assignments
`(folder, version, write succeeded)` in order. -/
structure ArchState where
  mem : Ledger
  disk : Ledger
  events : List (String × Nat × Bool)

/-- `RepoArchiver._get_next_version` (lines 247-252): read the current
value (default 0), increment, store in the in-memory dict, return it. -/
def get_next_version (versions : Ledger) (folder : String) : Nat × Ledger :=
  let next := versions folder + 1
  (next, fun f => if f = folder then next else versions f)

/-- `RepoArchiver._save_versions` (lines 242-245): write the whole
in-memory dict to `versions.json`. -/
def save_versions (s : ArchState) : ArchState :=
  { s with disk := s.mem }

/-- `RepoArchiver._archive_folder` (lines 259-288): skip a missing folder;
otherwise assign the next version, attempt the zip write, and persist the
ledger only after a successful write (a failed write deletes the partial
zip and leaves the on-disk ledger untouched at this point). -/
def archive_folder (oc : ArchiveEnv) (folder : String) (s : ArchState) :
    ArchState :=
  match oc folder with
  | .absent => s
  | .writeFail =>
    let p := get_next_version s.mem folder
    { s with mem := p.2, events := s.events ++ [(folder, p.1, false)] }
  | .writeOk =>
    let p := get_next_version s.mem folder
    save_versions
      { s with mem := p.2, events := s.events ++ [(folder, p.1, true)] }

/-- `RepoArchiver.docs_folders` (lines 220-225). -/
def docs_folders : List String :=
  ["API Documentation", "Classifier", "Logic Understanding",
   "UAT Documentation"]

/-- `RepoArchiver.archive_documentation` (lines 290-296) generalized to an
arbitrary folder list: archive each folder in order. -/
def archive_documentation (oc : ArchiveEnv) (folders : List String)
    (s : ArchState) : ArchState :=
  folders.foldl (fun t f => archive_folder oc f t) s

/-- One run of `repo_delete.py` against a repository: `_load_versions`
(lines 231-240) loads the committed ledger into memory, then
`archive_documentation` processes the four documentation folders. -/
def run_archiver (oc : ArchiveEnv) (s : ArchState) : ArchState :=
  archive_documentation oc docs_folders { s with mem := s.disk }

/-- The archiver state before the first run: empty committed ledger
(`versions.json` missing, every folder at version 0) and no history. -/
def emptyArchState : ArchState :=
  { mem := fun _ => 0, disk := fun _ => 0, events := [] }

/-- A sequence of runs for the same repository, in order, starting from a
fresh archive directory.  The committed ledger persists between runs; the
in-memory dict is reloaded from it at the start of each run. -/
def process_runs (runs : List ArchiveEnv) : ArchState :=
  runs.foldl (fun s oc => run_archiver oc s) emptyArchState

/-- Claim C4 as stated: in the assignment history, every version assigned
to a successfully archived folder is strictly greater than every version
assigned to that folder earlier, whether or not the earlier attempt
succeeded. -/
def version_assignments_strictly_increase
    (evs : List (String × Nat × Bool)) : Prop :=
  List.Pairwise (fun a b => b.2.2 = true → a.1 = b.1 → a.2.1 < b.2.1) evs

/-- Run 1: the API Documentation folder exists but its zip write fails. -/
def c4FailEnv : ArchiveEnv := fun f =>
  if f = "API Documentation" then .writeFail else .absent

/-- Run 2: the API Documentation folder exists and its zip write
succeeds. -/
def c4OkEnv : ArchiveEnv := fun f =>
  if f = "API Documentation" then .writeOk else .absent

/-- Counterexample to claim C4: when a run's failed write is not followed
by any successful write in the same run, the incremented counter is never
persisted, and the next run reassigns the same version number: version 1
of `API Documentation` is assigned to the failed archive of run 1 and
reused for the successful archive of run 2. -/
theorem version_number_reuse_counterexample :
    (process_runs [c4FailEnv, c4OkEnv]).events
      = [("API Documentation", 1, false), ("API Documentation", 1, true)] ∧
    ¬ version_assignments_strictly_increase
        (process_runs [c4FailEnv, c4OkEnv]).events := by
  constructor
  · decide
  · simp only [version_assignments_strictly_increase]
    decide

/-- Amended claim C4 relation: among the *successful* archives of the same
folder, version numbers strictly increase (and are hence never reused). -/
def success_versions_strictly_increase
    (evs : List (String × Nat × Bool)) : Prop :=
  List.Pairwise (fun a b => a.2.2 = true → b.2.2 = true → a.1 = b.1 →
    a.2.1 < b.2.1) evs

/-- Invariant carried through every archiver step: the committed ledger is
dominated pointwise by the in-memory dict, every successfully archived
version is at most the committed value of its folder, and successful
versions strictly increase. -/
def ArchInv (s : ArchState) : Prop :=
  (∀ f, s.disk f ≤ s.mem f) ∧
  (∀ e ∈ s.events, e.2.2 = true → e.2.1 ≤ s.disk e.1) ∧
  success_versions_strictly_increase s.events

theorem archive_folder_inv (oc : ArchiveEnv) (g : String) (s : ArchState)
    (h : ArchInv s) : ArchInv (archive_folder oc g s) := by
  obtain ⟨h1, h2, h3⟩ := h
  unfold archive_folder
  cases hog : oc g with
  | absent => exact ⟨h1, h2, h3⟩
  | writeFail =>
    simp only [get_next_version]
    refine ⟨fun f => ?_, fun e he hse => ?_, ?_⟩
    · by_cases hf : f = g
      · subst hf
        simp only [if_pos rfl]
        exact Nat.le_succ_of_le (h1 f)
      · simp only [if_neg hf]
        exact h1 f
    · rcases List.mem_append.mp he with hin | hin
      · exact h2 e hin hse
      · simp only [List.mem_singleton] at hin
        subst hin
        simp at hse
    · unfold success_versions_strictly_increase at h3 ⊢
      rw [List.pairwise_append]
      refine ⟨h3, List.pairwise_singleton _ _, ?_⟩
      intro a _ b hb
      simp only [List.mem_singleton] at hb
      subst hb
      intro _ hsb
      simp at hsb
  | writeOk =>
    simp only [get_next_version, save_versions]
    refine ⟨fun f => le_refl _, fun e he hse => ?_, ?_⟩
    · rcases List.mem_append.mp he with hin | hin
      · dsimp only
        by_cases hf : e.1 = g
        · rw [if_pos hf]
          calc e.2.1 ≤ s.disk e.1 := h2 e hin hse
            _ ≤ s.mem e.1 := h1 e.1
            _ = s.mem g := by rw [hf]
            _ ≤ s.mem g + 1 := Nat.le_succ _
        · rw [if_neg hf]
          exact le_trans (h2 e hin hse) (h1 e.1)
      · simp only [List.mem_singleton] at hin
        subst hin
        simp
    · unfold success_versions_strictly_increase at h3 ⊢
      rw [List.pairwise_append]
      refine ⟨h3, List.pairwise_singleton _ _, ?_⟩
      intro a ha b hb
      simp only [List.mem_singleton] at hb
      subst hb
      intro hsa _ heq
      have hd := h2 a ha hsa
      rw [heq] at hd
      exact Nat.lt_succ_of_le (le_trans hd (h1 g))

theorem archive_documentation_inv (oc : ArchiveEnv) (folders : List String)
    (s : ArchState) (h : ArchInv s) :
    ArchInv (archive_documentation oc folders s) := by
  induction folders generalizing s with
  | nil => exact h
  | cons g gs ih =>
    simp only [archive_documentation, List.foldl] at ih ⊢
    exact ih _ (archive_folder_inv oc g s h)

theorem run_archiver_inv (oc : ArchiveEnv) (s : ArchState) (h : ArchInv s) :
    ArchInv (run_archiver oc s) := by
  unfold run_archiver
  refine archive_documentation_inv oc docs_folders _ ⟨fun f => le_refl _, ?_, h.2.2⟩
  exact h.2.1

theorem foldl_runs_inv (runs : List ArchiveEnv) (s : ArchState)
    (h : ArchInv s) :
    ArchInv (runs.foldl (fun t oc => run_archiver oc t) s) := by
  induction runs generalizing s with
  | nil => exact h
  | cons oc rest ih => exact ih _ (run_archiver_inv oc s h)

theorem process_runs_inv (runs : List ArchiveEnv) :
    ArchInv (process_runs runs) := by
  have base : ArchInv emptyArchState :=
    ⟨fun f => le_refl _, fun e he => absurd he (List.not_mem_nil e),
     List.Pairwise.nil⟩
  exact foldl_runs_inv runs emptyArchState base

/-- Amended claim C4: for a given repository and folder name, the version
assigned to a *successfully* archived folder is strictly greater than every
version previously assigned to a successful archive of that folder, across
all prior runs.  (Versions assigned to failed attempts are persisted — and
hence protected against reuse — only when a later folder in the same run
archives successfully; otherwise they may be reassigned, as
`version_number_reuse_counterexample` shows.) -/
theorem successful_versions_strictly_increase_across_runs
    (runs : List ArchiveEnv) :
    success_versions_strictly_increase (process_runs runs).events :=
  (process_runs_inv runs).2.2

/-- A folder different from the one being archived keeps its in-memory and
committed values through `_archive_folder`, provided they agree (as they
do right after `_load_versions`); they still agree afterwards. -/
theorem archive_folder_other_folder (oc : ArchiveEnv) (g : String)
    (s : ArchState) (f : String) (hne : f ≠ g)
    (hmd : s.mem f = s.disk f) :
    (archive_folder oc g s).mem f = s.mem f ∧
    (archive_folder oc g s).disk f = s.disk f := by
  unfold archive_folder
  cases hog : oc g with
  | absent => exact ⟨rfl, rfl⟩
  | writeFail =>
    simp only [get_next_version]
    refine ⟨?_, by trivial⟩
    show (if f = g then s.mem g + 1 else s.mem f) = s.mem f
    exact if_neg hne
  | writeOk =>
    simp only [get_next_version, save_versions]
    refine ⟨?_, ?_⟩
    · show (if f = g then s.mem g + 1 else s.mem f) = s.mem f
      exact if_neg hne
    · show (if f = g then s.mem g + 1 else s.mem f) = s.disk f
      rw [if_neg hne]
      exact hmd

/-- `_archive_folder` touches the committed ledger only on a successful
write. -/
theorem archive_folder_no_success_disk (oc : ArchiveEnv) (g : String)
    (s : ArchState) (hg : oc g ≠ .writeOk) :
    (archive_folder oc g s).disk = s.disk := by
  unfold archive_folder
  cases hog : oc g with
  | absent => rfl
  | writeFail => rfl
  | writeOk => exact absurd hog hg

/-- Folders the run never archives leave both ledgers untouched at `f`,
provided the in-memory and committed values at `f` agree at the start (as
they do right after `_load_versions`). -/
theorem archive_documentation_untouched (oc : ArchiveEnv)
    (folders : List String) (s : ArchState) (f : String)
    (hf : f ∉ folders) (hmd : s.mem f = s.disk f) :
    (archive_documentation oc folders s).mem f = s.mem f ∧
    (archive_documentation oc folders s).disk f = s.disk f := by
  induction folders generalizing s with
  | nil => exact ⟨rfl, rfl⟩
  | cons g gs ih =>
    have hne : f ≠ g := fun hfg => hf (hfg ▸ List.mem_cons_self g gs)
    have hrest : f ∉ gs := fun hmem => hf (List.mem_cons_of_mem g hmem)
    have hstep := archive_folder_other_folder oc g s f hne hmd
    have hmd' : (archive_folder oc g s).mem f = (archive_folder oc g s).disk f := by
      rw [hstep.1, hstep.2, hmd]
    simp only [archive_documentation, List.foldl] at ih ⊢
    have htail := ih (archive_folder oc g s) hrest hmd'
    rw [htail.1, htail.2, hstep.1, hstep.2]
    exact ⟨rfl, rfl⟩

/-- A stretch of the run in which no folder's write succeeds never calls
`_save_versions`, so the committed ledger is unchanged. -/
theorem archive_documentation_no_success (oc : ArchiveEnv)
    (folders : List String) (s : ArchState)
    (h : ∀ g ∈ folders, oc g ≠ .writeOk) :
    (archive_documentation oc folders s).disk = s.disk := by
  induction folders generalizing s with
  | nil => rfl
  | cons g gs ih =>
    have hg := h g (List.mem_cons_self g gs)
    have hgs : ∀ x ∈ gs, oc x ≠ .writeOk :=
      fun x hx => h x (List.mem_cons_of_mem g hx)
    simp only [archive_documentation, List.foldl] at ih ⊢
    rw [ih (archive_folder oc g s) hgs, archive_folder_no_success_disk oc g s hg]

/-- A run in which the API Documentation folder's write fails and the
Classifier folder's write succeeds afterwards. -/
def c5Env : ArchiveEnv := fun f =>
  if f = "API Documentation" then .writeFail
  else if f = "Classifier" then .writeOk
  else .absent

/-- Counterexample to claim C5: the folder `API Documentation` fails its
archive write (so nothing is flushed at that point), yet the later
successful archive of `Classifier` in the same run persists the whole
in-memory dict — including the failed folder's incremented counter — so
the committed value for the failed folder advances from 0 to 1. -/
theorem failed_write_committed_by_later_success_counterexample :
    c5Env "API Documentation" = .writeFail ∧
    emptyArchState.disk "API Documentation" = 0 ∧
    (run_archiver c5Env emptyArchState).disk "API Documentation" = 1 ∧
    (run_archiver c5Env emptyArchState).disk "API Documentation"
      ≠ emptyArchState.disk "API Documentation" := by
  refine ⟨rfl, rfl, by decide, by decide⟩

/-- Amended claim C5: the ledger is persisted only by a successful bundle
write, so for every folder whose archive write fails, the committed value
for that folder is unchanged *provided no later folder in the same run
archives successfully* (a later success persists the whole in-memory
ledger, including the failed folder's incremented counter, as
`failed_write_committed_by_later_success_counterexample` shows). -/
theorem failed_write_not_committed_without_later_success
    (oc : ArchiveEnv) (s : ArchState) (pre post : List String) (f : String)
    (hsplit : docs_folders = pre ++ f :: post)
    (hpre : f ∉ pre)
    (hf : oc f = .writeFail)
    (hpost : ∀ g ∈ post, oc g ≠ .writeOk) :
    (run_archiver oc s).disk f = s.disk f := by
  unfold run_archiver
  rw [hsplit]
  have hfold : archive_documentation oc (pre ++ f :: post)
        { s with mem := s.disk }
      = archive_documentation oc post
          (archive_folder oc f
            (archive_documentation oc pre { s with mem := s.disk })) := by
    simp only [archive_documentation, List.foldl_append, List.foldl]
  rw [hfold]
  have hpref := archive_documentation_untouched oc pre
    { s with mem := s.disk } f hpre rfl
  have hmid : (archive_folder oc f
      (archive_documentation oc pre { s with mem := s.disk })).disk f
      = s.disk f := by
    have : (archive_folder oc f
        (archive_documentation oc pre { s with mem := s.disk })).disk
        = (archive_documentation oc pre { s with mem := s.disk }).disk := by
      unfold archive_folder
      rw [hf]
    rw [this, hpref.2]
  rw [congrFun (archive_documentation_no_success oc post _ hpost) f, hmid]

/-- Concrete instance of `failed_write_not_committed_without_later_success`:
a run in which every folder's write fails commits nothing for the first
folder. -/
theorem failed_write_not_committed_without_later_success_witness :
    (run_archiver (fun _ => .writeFail) emptyArchState).disk
      "API Documentation" = 0 :=
  failed_write_not_committed_without_later_success
    (fun _ => .writeFail) emptyArchState []
    ["Classifier", "Logic Understanding", "UAT Documentation"]
    "API Documentation" rfl (by decide) rfl (by decide)

/-! ### Archive delivery — `ArchiveSender.send_archives`

`archive_sender.py` lines 64-178.  `_create_archive_package` (lines
64-107) builds `temp_archives/<repo>_documentation_<ts>.zip`, writes
`manifest.json` next to it, adds it to the zip and unlinks it before
returning, so on a successful creation only the zip file remains in the
temporary directory.  `send_archives` (lines 133-178) performs one POST
and, in a `finally` block, calls `_cleanup_temp_files` (lines 109-118),
which unlinks the zip and removes the now-empty temporary directory (the
`rmdir` fails, and is caught, if any other file is still inside). -/

/-- Which temporary artifacts of `ArchiveSender` currently exist. -/
structure TempState where
  zipExists : Bool
  manifestExists : Bool
  tempDirExists : Bool
deriving DecidableEq, Repr

/-- Outcome of the single outbound POST: an HTTP response with a status
code, a transport-level `RequestException`, or any other exception. -/
inductive SendOutcome where
  | http (code : Nat)
  | transportError
  | otherError
deriving DecidableEq, Repr

/-- Temporary artifacts right after a successful
`_create_archive_package`: the zip exists in the temporary directory and
the manifest has already been unlinked (line 101). -/
def afterPackageCreation : TempState :=
  { zipExists := true, manifestExists := false, tempDirExists := true }

/-- `ArchiveSender._cleanup_temp_files` (lines 109-118): unlink the zip if
present, then remove the temporary directory; the `rmdir` succeeds only
when the directory is empty, i.e. when no manifest file is left in it
(the exception of a non-empty `rmdir` is caught and only logged). -/
def cleanup_temp_files (t : TempState) : TempState :=
  let t := { t with zipExists := false }
  if t.tempDirExists && !t.manifestExists then
    { t with tempDirExists := false }
  else t

/-- `ArchiveSender.send_archives` (lines 133-178) after a successful
package creation: one POST attempt, `True` only on a 200 response, and
`_cleanup_temp_files` on every exit path (on the 200 path it runs twice:
once at line 162 and once in the `finally` block; the second call is a
no-op).  Returns the boolean result and the final temporary-file state. -/
def send_archives (outcome : SendOutcome) : Bool × TempState :=
  match outcome with
  | .http code =>
    if code = 200 then
      (true, cleanup_temp_files (cleanup_temp_files afterPackageCreation))
    else (false, cleanup_temp_files afterPackageCreation)
  | .transportError => (false, cleanup_temp_files afterPackageCreation)
  | .otherError => (false, cleanup_temp_files afterPackageCreation)

/-- Claim C8: on every exit path of `send_archives` — success, non-200
response, transport exception, or any other exception — the temporary
files it created (the deliverable zip package and the manifest file) are
removed before the call returns; the temporary directory itself is
removed as well. -/
theorem send_archives_always_cleans_temp_files (outcome : SendOutcome) :
    (send_archives outcome).2.zipExists = false ∧
    (send_archives outcome).2.manifestExists = false ∧
    (send_archives outcome).2.tempDirExists = false := by
  cases outcome with
  | http code =>
    by_cases hc : code = 200 <;>
      simp [send_archives, cleanup_temp_files, afterPackageCreation, hc]
  | transportError => decide
  | otherError => decide
